import Mathlib

/-!
Verification of the SlicerConnect frontend static web server
(`src/frontend/server.js`), a minimal Express application.

The server is embedded shallowly:

* a filesystem is a finite association of absolute path strings to file
  contents;
* an HTTP request carries a method, a path, an optional `Content-Type`
  header and an optional raw body (`none` = the request has no body);
* the middleware pipeline is modelled in the registration order of
  `server.js`: `cors()` (line 11), `express.json()` (line 12),
  `express.static(path.join(__dirname, "src"))` (line 17), then the two
  routes `GET /` (lines 19–21) and `GET /verify` (lines 22–24), with the
  framework default 404 handler last;
* `cors()` with no options adds `Access-Control-Allow-Origin: *` to every
  response and short-circuits `OPTIONS` requests with a `204` preflight
  response (the package default, `preflightContinue: false`);
* `express.json()` rejects a request with a `400` response exactly when the
  request has a nonempty body, its media type is `application/json`, and the
  JSON parser fails on the body.  The parser itself is external library
  code, so the pipeline is parameterized by its success predicate
  `jsonOk : String → Bool`;
* `express.static` serves `GET`/`HEAD` requests whose path resolves to an
  existing file under the static root, with a content type inferred from the
  file extension; a path ending in `/` is a directory and is answered with
  its `index.html` when present; otherwise the middleware falls through;
* `res.sendFile` answers `200` with the file contents when the file exists
  and produces a `404` (the `ENOENT` error status) when it does not;
* the port is `process.env.PORT || 3000` (line 26): the JavaScript `||`
  falls back exactly when the left side is falsy, which for an environment
  string means unset or empty.
-/

namespace SlicerConnect

/-- A filesystem: a finite association of absolute paths to file contents. -/
def FileSystem := List (String × String)

/-- First-match association lookup, used for the filesystem and for
response headers. -/
def assocLookup (l : List (String × String)) (k : String) : Option String :=
  match l with
  | [] => none
  | (q, v) :: rest => if q = k then some v else assocLookup rest k

/-- Contents of the file at path `p`, if any. -/
def lookupFile (fs : FileSystem) (p : String) : Option String :=
  assocLookup fs p

/-- `path.join a b` for a directory `a` and a relative component `b`. -/
def pathJoin (a b : String) : String :=
  a ++ "/" ++ b

/-- Last `/`-separated component of a path (as `path.basename`). -/
def basenameOf (p : String) : String :=
  match (p.splitOn "/").reverse with
  | [] => p
  | b :: _ => b

/-- Extension of the path's basename: the part after the last dot, empty
when the basename has no dot (as `path.extname`, without the dot). -/
def extOf (p : String) : String :=
  match ((basenameOf p).splitOn ".").reverse with
  | [] => ""
  | [_] => ""
  | e :: _ => e

/-- Content type inferred from a file extension, as the `mime` lookup used
by `express.static` and `res.sendFile`: a table keyed only on the
extension, with a binary default. -/
def mimeOf (e : String) : String :=
  if e = "html" then "text/html"
  else if e = "css" then "text/css"
  else if e = "js" then "application/javascript"
  else if e = "json" then "application/json"
  else if e = "png" then "image/png"
  else "application/octet-stream"

/-- An HTTP request: method, URL path, optional `Content-Type` header, and
optional raw body (`none` when the request carries no body). -/
structure Request where
  method : String
  path : String
  contentType : Option String
  body : Option String
deriving Repr, DecidableEq

/-- An HTTP response: status code, headers, body. -/
structure Response where
  status : Nat
  headers : List (String × String)
  body : String
deriving Repr, DecidableEq

/-- Characters before the first `;` of a header value. -/
def takeUntilSemi : List Char → List Char
  | [] => []
  | c :: rest => if c = ';' then [] else c :: takeUntilSemi rest

/-- Drop leading and trailing spaces from a character list. -/
def trimSpaces (l : List Char) : List Char :=
  ((l.dropWhile (fun c => c = ' ')).reverse.dropWhile (fun c => c = ' ')).reverse

/-- ASCII lowercasing of a single character. -/
def asciiLower (c : Char) : Char :=
  if 65 ≤ c.toNat ∧ c.toNat ≤ 90 then Char.ofNat (c.toNat + 32) else c

/-- Media type of a `Content-Type` header value: the part before the first
`;`, trimmed and lowercased (parameters such as `charset` are ignored, as
in the `type-is` match done by `express.json`). -/
def mediaType (s : String) : String :=
  String.mk ((trimSpaces (takeUntilSemi s.data)).map asciiLower)

/-- Whether the request's `Content-Type` matches `application/json`, the
default type accepted by `express.json`. -/
def isJsonType (ct : Option String) : Bool :=
  match ct with
  | none => false
  | some s => mediaType s = "application/json"

/-- Whether `express.json()` rejects the request: it has a nonempty body,
the media type is `application/json`, and the parser fails on the body.
(A request without a body, or with an empty one, is passed through: the
body reader special-cases the empty body to `\x7b\x7d` without parsing.) -/
def jsonBodyError (jsonOk : String → Bool) (req : Request) : Bool :=
  match req.body with
  | none => false
  | some b => !(b = "") && isJsonType req.contentType && !(jsonOk b)

/-- The static asset root of `server.js` line 17:
`path.join(__dirname, "src")`. -/
def staticRoot (dirname : String) : String :=
  pathJoin dirname "src"

/-- Whether string `s` ends with string `t` (computable model of
`String.endsWith`, over the character lists). -/
def strEndsWith (s t : String) : Bool :=
  t.data.isSuffixOf s.data

/-- `express.static` file resolution: a path ending in `/` denotes a
directory and resolves to its `index.html` when that file exists; any other
path resolves to the file at `root ++ path` when it exists.  Returns the
resolved absolute path together with the contents. -/
def staticLookup (fs : FileSystem) (root p : String) : Option (String × String) :=
  if strEndsWith p "/" then
    match lookupFile fs (root ++ p ++ "index.html") with
    | some c => some (root ++ p ++ "index.html", c)
    | none => none
  else
    match lookupFile fs (root ++ p) with
    | some c => some (root ++ p, c)
    | none => none

/-- `cors()` adds the permissive origin header to a response. -/
def corsify (r : Response) : Response :=
  { r with headers := ("Access-Control-Allow-Origin", "*") :: r.headers }

/-- The `204` preflight answer `cors()` sends to every `OPTIONS` request
(package default `preflightContinue: false`, status 204). -/
def preflightResponse : Response :=
  { status := 204
    headers := [("Access-Control-Allow-Methods", "GET,HEAD,PUT,PATCH,POST,DELETE")]
    body := "" }

/-- The `400` response produced when `express.json()` fails to parse a
request body (the framework default error handler, `entity.parse.failed`). -/
def jsonErrorResponse : Response :=
  { status := 400
    headers := [("Content-Type", "text/html; charset=utf-8")]
    body := "Bad Request" }

/-- A `200` response carrying file contents with an inferred content type. -/
def ok200 (contents mime : String) : Response :=
  { status := 200
    headers := [("Content-Type", mime)]
    body := contents }

/-- The framework default not-found response (`finalhandler`): status 404
with the stock `Cannot <METHOD> <path>` body, no custom error body. -/
def defaultNotFound (req : Request) : Response :=
  { status := 404
    headers := [("Content-Type", "text/html; charset=utf-8")]
    body := "Cannot " ++ req.method ++ " " ++ req.path }

/-- `res.sendFile p`: `200` with the file's contents and inferred content
type when the file exists; otherwise the `ENOENT` error surfaces as a `404`
through the default error handler. -/
def sendFileResp (fs : FileSystem) (p : String) : Response :=
  match lookupFile fs p with
  | some c => ok200 c (mimeOf (extOf p))
  | none =>
    { status := 404
      headers := [("Content-Type", "text/html; charset=utf-8")]
      body := "Not Found" }

/-- The two routes of `server.js` lines 19–24 followed by the framework
default 404.  An Express `app.get` route answers `GET` (and `HEAD`)
requests for exactly its path. -/
def routeDispatch (fs : FileSystem) (root : String) (req : Request) : Response :=
  if (req.method = "GET" ∨ req.method = "HEAD") ∧ req.path = "/" then
    sendFileResp fs (pathJoin root "index.html")
  else if (req.method = "GET" ∨ req.method = "HEAD") ∧ req.path = "/verify" then
    sendFileResp fs (pathJoin root "verify.html")
  else defaultNotFound req

/-- The whole request pipeline of `server.js`, in registration order:
`cors()` (line 11, with its default preflight short-circuit), then
`express.json()` (line 12), then `express.static` (line 17, `GET`/`HEAD`
only), then the two routes and the framework default 404.  `jsonOk` is the
success predicate of the external JSON parser, `fs` the filesystem and
`dirname` the directory of `server.js` itself. -/
def handle (jsonOk : String → Bool) (fs : FileSystem) (dirname : String)
    (req : Request) : Response :=
  let root := staticRoot dirname
  corsify
    (if req.method = "OPTIONS" then preflightResponse
     else if jsonBodyError jsonOk req then jsonErrorResponse
     else if req.method = "GET" ∨ req.method = "HEAD" then
       match staticLookup fs root req.path with
       | some fc => ok200 fc.2 (mimeOf (extOf fc.1))
       | none => routeDispatch fs root req
     else routeDispatch fs root req)

/-- `const PORT = process.env.PORT || 3000` (line 26): the JavaScript `||`
takes the right side exactly when the environment value is falsy, i.e. the
variable is unset or the empty string; the numeric fallback `3000` is
modelled as its decimal string. -/
def PORT (envPORT : Option String) : String :=
  match envPORT with
  | none => "3000"
  | some s => if s = "" then "3000" else s

/-- The process environment the startup sequence can observe: the directory
of the server file itself (`__dirname`, lines 14–15), the working directory
the process was launched from, and the `PORT` variable. -/
structure ProcessEnv where
  dirname : String
  cwd : String
  envPORT : Option String

/-- The static root the startup sequence resolves from a process
environment: `path.join(__dirname, "src")`, reading only `__dirname`. -/
def resolvedStaticRoot (env : ProcessEnv) : String :=
  staticRoot env.dirname

/-! ## Concrete data for witnesses -/

/-- A small deployed filesystem matching the layout the spec expects under
the static root: `index.html`, `verify.html` and one further asset. -/
def demoFs : FileSystem :=
  [ ("/app/src/index.html", "INDEX-HTML")
  , ("/app/src/verify.html", "VERIFY-HTML")
  , ("/app/src/app.css", "CSS-BODY") ]

/-- A JSON parser stand-in that accepts every body. -/
def jsonOkAll : String → Bool := fun _ => true

/-- A JSON parser stand-in that rejects every body. -/
def jsonOkNone : String → Bool := fun _ => false

/-! ## Claim theorems -/

/-- C1: for every `GET /` request that the JSON middleware does not reject,
if `index.html` exists under the static root the response has status 200
and its body is exactly that file's contents. -/
theorem get_root_serves_index (jsonOk : String → Bool) (fs : FileSystem)
    (dirname : String) (req : Request) (c : String)
    (hm : req.method = "GET") (hp : req.path = "/")
    (hj : jsonBodyError jsonOk req = false)
    (hf : lookupFile fs (pathJoin (staticRoot dirname) "index.html") = some c) :
    (handle jsonOk fs dirname req).status = 200 ∧
    (handle jsonOk fs dirname req).body = c := by
  have hs : strEndsWith "/" "/" = true := by decide
  simp [handle, staticLookup, hm, hp, hj, hs, pathJoin] at *
  simp [hf, corsify, ok200]

/-- C1 witness: the theorem applied to a concrete request and filesystem. -/
theorem get_root_serves_index_witness :
    lookupFile demoFs (pathJoin (staticRoot "/app") "index.html") = some "INDEX-HTML" ∧
    ((handle jsonOkAll demoFs "/app" ⟨"GET", "/", none, none⟩).status = 200 ∧
     (handle jsonOkAll demoFs "/app" ⟨"GET", "/", none, none⟩).body = "INDEX-HTML") :=
  ⟨by decide,
   get_root_serves_index jsonOkAll demoFs "/app" ⟨"GET", "/", none, none⟩
     "INDEX-HTML" rfl rfl rfl (by decide)⟩

/-- C2: for every `GET /verify` request that the JSON middleware does not
reject, if `verify.html` exists under the static root and no static file
named `verify` shadows the route, the response has status 200 and its body
is exactly the contents of `verify.html`. -/
theorem get_verify_serves_verify (jsonOk : String → Bool) (fs : FileSystem)
    (dirname : String) (req : Request) (c : String)
    (hm : req.method = "GET") (hp : req.path = "/verify")
    (hj : jsonBodyError jsonOk req = false)
    (hshadow : lookupFile fs (staticRoot dirname ++ "/verify") = none)
    (hf : lookupFile fs (pathJoin (staticRoot dirname) "verify.html") = some c) :
    (handle jsonOk fs dirname req).status = 200 ∧
    (handle jsonOk fs dirname req).body = c := by
  have hs : strEndsWith "/verify" "/" = false := by decide
  simp [handle, staticLookup, routeDispatch, hm, hp, hj, hs, hshadow]
  simp [sendFileResp, hf, corsify, ok200]

/-- C2 witness: the theorem applied to a concrete request and filesystem. -/
theorem get_verify_serves_verify_witness :
    lookupFile demoFs (staticRoot "/app" ++ "/verify") = none ∧
    lookupFile demoFs (pathJoin (staticRoot "/app") "verify.html") = some "VERIFY-HTML" ∧
    ((handle jsonOkAll demoFs "/app" ⟨"GET", "/verify", none, none⟩).status = 200 ∧
     (handle jsonOkAll demoFs "/app" ⟨"GET", "/verify", none, none⟩).body = "VERIFY-HTML") :=
  ⟨by decide, by decide,
   get_verify_serves_verify jsonOkAll demoFs "/app" ⟨"GET", "/verify", none, none⟩
     "VERIFY-HTML" rfl rfl rfl (by decide) (by decide)⟩

/-- C3: for every `GET` request for a path (not a directory path) that
names an existing file under the static root, if the JSON middleware does
not reject the request, the response has status 200, its body is exactly
that file's contents, and its `Content-Type` header is the type inferred
from the resolved file's extension. -/
theorem get_static_file_served (jsonOk : String → Bool) (fs : FileSystem)
    (dirname : String) (req : Request) (c : String)
    (hm : req.method = "GET") (hslash : strEndsWith req.path "/" = false)
    (hj : jsonBodyError jsonOk req = false)
    (hf : lookupFile fs (staticRoot dirname ++ req.path) = some c) :
    (handle jsonOk fs dirname req).status = 200 ∧
    (handle jsonOk fs dirname req).body = c ∧
    assocLookup (handle jsonOk fs dirname req).headers "Content-Type" =
      some (mimeOf (extOf (staticRoot dirname ++ req.path))) := by
  simp [handle, staticLookup, hm, hslash, hj, hf]
  simp [corsify, ok200, assocLookup]

/-- C3 witness: the theorem applied to a concrete request and filesystem. -/
theorem get_static_file_served_witness :
    strEndsWith "/app.css" "/" = false ∧
    lookupFile demoFs (staticRoot "/app" ++ "/app.css") = some "CSS-BODY" ∧
    ((handle jsonOkAll demoFs "/app" ⟨"GET", "/app.css", none, none⟩).status = 200 ∧
     (handle jsonOkAll demoFs "/app" ⟨"GET", "/app.css", none, none⟩).body = "CSS-BODY" ∧
     assocLookup (handle jsonOkAll demoFs "/app" ⟨"GET", "/app.css", none, none⟩).headers
       "Content-Type" = some (mimeOf (extOf (staticRoot "/app" ++ "/app.css")))) :=
  ⟨by decide, by decide,
   get_static_file_served jsonOkAll demoFs "/app" ⟨"GET", "/app.css", none, none⟩
     "CSS-BODY" rfl (by decide) rfl (by decide)⟩

/-- C4: for every `GET` request whose path is neither `/` nor `/verify` and
resolves to no file under the static root, if the JSON middleware does not
reject the request, the response has status 404 with the framework's stock
`Cannot GET` body, not a custom error body. -/
theorem get_unknown_path_404 (jsonOk : String → Bool) (fs : FileSystem)
    (dirname : String) (req : Request)
    (hm : req.method = "GET")
    (hp1 : req.path ≠ "/") (hp2 : req.path ≠ "/verify")
    (hj : jsonBodyError jsonOk req = false)
    (hns : staticLookup fs (staticRoot dirname) req.path = none) :
    (handle jsonOk fs dirname req).status = 404 ∧
    (handle jsonOk fs dirname req).body = "Cannot GET " ++ req.path := by
  simp [handle, hm, hj, hns, routeDispatch, hp1, hp2]
  simp [defaultNotFound, corsify, hm]

/-- C4 witness: the theorem applied to a concrete request and filesystem. -/
theorem get_unknown_path_404_witness :
    ("/missing.txt" : String) ≠ "/" ∧ ("/missing.txt" : String) ≠ "/verify" ∧
    staticLookup demoFs (staticRoot "/app") "/missing.txt" = none ∧
    ((handle jsonOkAll demoFs "/app" ⟨"GET", "/missing.txt", none, none⟩).status = 404 ∧
     (handle jsonOkAll demoFs "/app" ⟨"GET", "/missing.txt", none, none⟩).body =
       "Cannot GET " ++ "/missing.txt") :=
  ⟨by decide, by decide, by decide,
   get_unknown_path_404 jsonOkAll demoFs "/app" ⟨"GET", "/missing.txt", none, none⟩
     rfl (by decide) (by decide) rfl (by decide)⟩

/-- C5: every response, for any method, path, headers, body, filesystem
and JSON parser, carries the permissive `Access-Control-Allow-Origin: *`
header added by the `cors()` middleware. -/
theorem every_response_has_cors_header (jsonOk : String → Bool)
    (fs : FileSystem) (dirname : String) (req : Request) :
    assocLookup (handle jsonOk fs dirname req).headers
      "Access-Control-Allow-Origin" = some "*" := by
  simp [handle, corsify, assocLookup]

/-- C6: with `PORT=4321` in the environment the resolved listening port is
4321; with `PORT` unset it is the default 3000. -/
theorem port_env_override_and_default :
    PORT (some "4321") = "4321" ∧ PORT none = "3000" := by
  decide

/-- C7 counterexample: with `PORT` set to the non-numeric string `abc`,
`process.env.PORT || 3000` resolves to `abc`, not to the default 3000, so
the claim that a non-numeric `PORT` falls back to 3000 is false. -/
theorem port_non_numeric_not_default :
    PORT (some "abc") = "abc" ∧ PORT (some "abc") ≠ "3000" := by
  decide

/-- C7 amended: the default 3000 is used exactly when `PORT` is unset or
set to the empty string; any nonempty value, numeric or not, is used
verbatim. -/
theorem port_nonempty_used_verbatim (s : String) (h : s ≠ "") :
    PORT (some s) = s ∧ PORT none = "3000" ∧ PORT (some "") = "3000" := by
  refine ⟨?_, rfl, rfl⟩
  simp [PORT, h]

/-- C7 amended witness: the theorem applied to a concrete value. -/
theorem port_nonempty_used_verbatim_witness :
    ("abc" : String) ≠ "" ∧
    (PORT (some "abc") = "abc" ∧ PORT none = "3000" ∧ PORT (some "") = "3000") :=
  ⟨by decide, port_nonempty_used_verbatim "abc" (by decide)⟩

/-- C8 counterexample: an `OPTIONS` request with `Content-Type:
application/json` and a body every JSON parser rejects is answered by the
`cors()` preflight short-circuit with status 204, not a 400-class error, so
the claim over every request is false. -/
theorem options_malformed_json_not_400 :
    (handle jsonOkNone [] "/app"
      ⟨"OPTIONS", "/data", some "application/json", some "not json"⟩).status = 204 ∧
    (handle jsonOkNone [] "/app"
      ⟨"OPTIONS", "/data", some "application/json", some "not json"⟩).status ≠ 400 := by
  constructor
  · rfl
  · decide

/-- C8 amended: for every non-`OPTIONS` request with `Content-Type:
application/json` and a nonempty body the JSON parser rejects, the server
responds with the middleware's 400 parse-error response; the whole response
is that fixed error response (plus the CORS header), for every filesystem
and path, so no route handler's output is involved. -/
theorem malformed_json_rejected_before_routes (jsonOk : String → Bool)
    (fs : FileSystem) (dirname : String) (req : Request) (b : String)
    (hm : req.method ≠ "OPTIONS")
    (hb : req.body = some b) (hne : b ≠ "")
    (hct : isJsonType req.contentType = true)
    (hbad : jsonOk b = false) :
    handle jsonOk fs dirname req = corsify jsonErrorResponse ∧
    (handle jsonOk fs dirname req).status = 400 := by
  have hj : jsonBodyError jsonOk req = true := by
    simp [jsonBodyError, hb, hne, hct, hbad]
  simp [handle, hm, hj, corsify, jsonErrorResponse]

/-- C8 amended witness: the theorem applied to a concrete request. -/
theorem malformed_json_rejected_before_routes_witness :
    ("GET" : String) ≠ "OPTIONS" ∧ ("not json" : String) ≠ "" ∧
    isJsonType (some "application/json") = true ∧ jsonOkNone "not json" = false ∧
    (handle jsonOkNone demoFs "/app"
       ⟨"GET", "/data", some "application/json", some "not json"⟩ =
         corsify jsonErrorResponse ∧
     (handle jsonOkNone demoFs "/app"
       ⟨"GET", "/data", some "application/json", some "not json"⟩).status = 400) :=
  ⟨by decide, by decide, by decide, rfl,
   malformed_json_rejected_before_routes jsonOkNone demoFs "/app"
     ⟨"GET", "/data", some "application/json", some "not json"⟩
     "not json" (by decide) rfl (by decide) (by decide) rfl⟩

/-- C9: the resolved static root is `path.join(__dirname, "src")`, a
function of the server file's own directory alone: two process
environments that agree on `__dirname` resolve the same static root, no
matter how their working directories (or anything else) differ. -/
theorem static_root_ignores_cwd (e1 e2 : ProcessEnv)
    (h : e1.dirname = e2.dirname) :
    resolvedStaticRoot e1 = resolvedStaticRoot e2 := by
  simp [resolvedStaticRoot, staticRoot, pathJoin, h]

/-- C9 witness: two environments with the same install directory but
different working directories resolve the same static root. -/
theorem static_root_ignores_cwd_witness :
    (ProcessEnv.mk "/opt/app" "/home/alice" none).dirname =
      (ProcessEnv.mk "/opt/app" "/tmp/build" (some "8080")).dirname ∧
    resolvedStaticRoot (ProcessEnv.mk "/opt/app" "/home/alice" none) =
      resolvedStaticRoot (ProcessEnv.mk "/opt/app" "/tmp/build" (some "8080")) :=
  ⟨rfl,
   static_root_ignores_cwd (ProcessEnv.mk "/opt/app" "/home/alice" none)
     (ProcessEnv.mk "/opt/app" "/tmp/build" (some "8080")) rfl⟩

/-- C10: a `GET` request whose path names an existing file under the static
root but which carries `Content-Type: application/json` with a nonempty
body the JSON parser rejects receives the middleware's 400 parse-error
response — its body is the error body, not the file's contents — because
`express.json()` is registered before `express.static`. -/
theorem json_error_shadows_static_file (jsonOk : String → Bool)
    (fs : FileSystem) (dirname : String) (req : Request) (b c : String)
    (hm : req.method = "GET")
    (hb : req.body = some b) (hne : b ≠ "")
    (hct : isJsonType req.contentType = true)
    (hbad : jsonOk b = false)
    (hf : lookupFile fs (staticRoot dirname ++ req.path) = some c) :
    (handle jsonOk fs dirname req).status = 400 ∧
    (handle jsonOk fs dirname req).body = jsonErrorResponse.body := by
  have hj : jsonBodyError jsonOk req = true := by
    simp [jsonBodyError, hb, hne, hct, hbad]
  simp [handle, hm, hj, corsify, jsonErrorResponse]

/-- C10 witness: the theorem applied to a concrete request for an existing
static file with a malformed JSON body. -/
theorem json_error_shadows_static_file_witness :
    lookupFile demoFs (staticRoot "/app" ++ "/app.css") = some "CSS-BODY" ∧
    isJsonType (some "application/json") = true ∧
    ((handle jsonOkNone demoFs "/app"
       ⟨"GET", "/app.css", some "application/json", some "not json"⟩).status = 400 ∧
     (handle jsonOkNone demoFs "/app"
       ⟨"GET", "/app.css", some "application/json", some "not json"⟩).body =
       jsonErrorResponse.body) :=
  ⟨by decide, by decide,
   json_error_shadows_static_file jsonOkNone demoFs "/app"
     ⟨"GET", "/app.css", some "application/json", some "not json"⟩
     "not json" "CSS-BODY" rfl rfl (by decide) (by decide) rfl (by decide)⟩

end SlicerConnect
